import Mathlib

/-!
Verification of the studio-go-runner scheduler core: a shallow embedding of
the disk resource ledger, the resource fit check, the request message
round-trip, the subscription registry alignment, and the queue producer /
consumer acknowledgement logic, together with theorems settling the stated
properties of each component.

External inputs (the `statfs` system call's available-byte figure, channel
readiness, and the processor outcome) are passed as explicit parameters.
All machine integers are modelled as natural numbers reduced modulo 2^64
where the Go source uses `uint64` arithmetic.
-/

deriving instance DecidableEq for Except

namespace StudioGoRunner

/-- The modulus of Go's `uint64` arithmetic. -/
def u64Mod : ℕ := 2 ^ 64

/-- Wrapping `uint64` addition, as performed by `+` on Go `uint64`. -/
def add64 (a b : ℕ) : ℕ := (a + b) % u64Mod

/-- Wrapping `uint64` subtraction, as performed by `-` on Go `uint64`:
for `a b < 2^64` this is `(a - b) mod 2^64`. -/
def sub64 (a b : ℕ) : ℕ := (a % u64Mod + (u64Mod - b % u64Mod)) % u64Mod

/-- `diskTracker` from the disk-allocation file: the device being tracked,
the bytes currently allocated, the soft minimum free space, and any
initialization error.  The mutex is a concurrency artifact and all
operations below already act atomically on the whole record. -/
structure DiskTracker where
  device : String
  allocSpace : ℕ
  softMinFree : ℕ
  initErr : Option String
deriving Repr, DecidableEq

/-- `DiskAllocated`: a disk reservation, carrying the device it was granted
on and its size in bytes (fields as used by `AllocDisk` and `Release`). -/
structure DiskAllocated where
  device : String
  size : ℕ
deriving Repr, DecidableEq

/-- Models `uint64(float64(avail) * 0.85)` from `SetDiskLimits`.  The Go
source computes this in `float64`; the embedding uses exact rational
arithmetic truncated to a natural number, which agrees with the float
computation except possibly in the final unit, and no theorem below
depends on that boundary. -/
def scale85 (avail : ℕ) : ℕ := avail * 85 / 100

/-- `SetDiskLimits(device, minFree)`: `availBytes` is the external
`statfs` result `fs.Bavail * fs.Bsize` for the device.  Computes the soft
minimum free space (85% of available, overridden by a nonzero smaller
`minFree`), zeroes the allocation total when the device changes, swaps the
device in, clears the initialization error, and returns the stored
`SoftMinFree`. -/
def SetDiskLimits (availBytes : ℕ) (device : String) (minFree : ℕ)
    (st : DiskTracker) : ℕ × DiskTracker :=
  let softBase := scale85 availBytes
  let softMinFree := if minFree ≠ 0 ∧ minFree < softBase then minFree else softBase
  let allocSpace := if device ≠ st.device then 0 else st.allocSpace
  (softMinFree,
    { device := device, allocSpace := allocSpace,
      softMinFree := softMinFree, initErr := none })

/-- `AllocDisk(maxSpace)`: `availBytes` is the freshly read `statfs`
available figure for the tracked device.  Exactly as in the source, the
function returns the "insufficent space" error when
`availBytes - (allocSpace + maxSpace)` (wrapping `uint64` subtraction)
exceeds `softMinFree`, and otherwise clears `InitErr`, adds `maxSpace` to
the allocation total and hands back a reservation for the tracked
device. -/
def AllocDisk (availBytes : ℕ) (maxSpace : ℕ)
    (st : DiskTracker) : Except String DiskAllocated × DiskTracker :=
  if sub64 availBytes (add64 st.allocSpace maxSpace) > st.softMinFree then
    (Except.error "insufficent space left", st)
  else
    (Except.ok { device := st.device, size := maxSpace },
     { st with initErr := none,
               allocSpace := add64 st.allocSpace maxSpace })

/-- `(alloc *DiskAllocated) Release()`: fails on a nil reservation, a
recorded initialization error, or a device mismatch; otherwise subtracts
the reservation's size from the allocation total with wrapping `uint64`
subtraction and succeeds. -/
def Release (st : DiskTracker) (alloc : Option DiskAllocated) :
    Except String Unit × DiskTracker :=
  match alloc with
  | none => (Except.error "empty allocation supplied for releasing disk storage", st)
  | some a =>
    match st.initErr with
    | some e => (Except.error e, st)
    | none =>
      if a.device ≠ st.device then
        (Except.error "allocated space came from untracked local storage", st)
      else
        (Except.ok (), { st with allocSpace := sub64 st.allocSpace a.size })

/-! ### Byte-size parsing (go-humanize `ParseBytes`)

`humanize.ParseBytes` is an external library call.  It is modelled from its
documented behaviour: a leading run of digits, dots and commas is parsed as
a decimal number (commas stripped), the remainder is trimmed, lowercased
and looked up in the SI/IEC unit table, and the product is truncated to an
unsigned integer.  The library computes the product in `float64`; the model
uses exact rational arithmetic truncated to a natural number.  On any
parse failure the library returns the value `0` together with an error,
modelled here as `none` (with `Option.getD 0` at use sites that ignore the
error). -/

/-- Characters accepted in the numeric prefix by `ParseBytes`. -/
def isNumChar (c : Char) : Bool := c.isDigit || c = '.' || c = ','

/-- Decimal value of a digit run. -/
def digitsToNat (cs : List Char) : ℕ :=
  cs.foldl (fun acc c => acc * 10 + (c.toNat - 48)) 0

/-- The unit multiplier table of go-humanize (`bytesSizeTable`), SI and
IEC spellings, lowercased. -/
def unitTable : List (String × ℕ) :=
  [("b", 1), ("kib", 1024), ("kb", 1000),
   ("mib", 1024 ^ 2), ("mb", 1000 ^ 2),
   ("gib", 1024 ^ 3), ("gb", 1000 ^ 3),
   ("tib", 1024 ^ 4), ("tb", 1000 ^ 4),
   ("pib", 1024 ^ 5), ("pb", 1000 ^ 5),
   ("eib", 1024 ^ 6), ("eb", 1000 ^ 6),
   ("", 1), ("ki", 1024), ("k", 1000),
   ("mi", 1024 ^ 2), ("m", 1000 ^ 2),
   ("gi", 1024 ^ 3), ("g", 1000 ^ 3),
   ("ti", 1024 ^ 4), ("t", 1000 ^ 4),
   ("pi", 1024 ^ 5), ("p", 1000 ^ 5),
   ("ei", 1024 ^ 6), ("e", 1000 ^ 6)]

/-- `humanize.ParseBytes`: `some v` on success, `none` on a parse error
(the library then returns `0` and a non-nil error). -/
def parseBytes (s : String) : Option ℕ :=
  let cs := s.toList
  let numPart := (cs.takeWhile isNumChar).filter (fun c => c ≠ ',')
  let extraChars :=
    (((cs.dropWhile isNumChar).dropWhile Char.isWhitespace).reverse.dropWhile
      Char.isWhitespace).reverse
  let extra := String.mk (extraChars.map Char.toLower)
  let intPart := numPart.takeWhile Char.isDigit
  let rest := numPart.dropWhile Char.isDigit
  let frac : Option (List Char) :=
    match rest with
    | [] => if intPart = [] then none else some []
    | '.' :: fs =>
      if fs.all Char.isDigit && (!intPart.isEmpty || !fs.isEmpty) then some fs
      else none
    | _ => none
  match frac with
  | none => none
  | some fs =>
    match unitTable.lookup extra with
    | none => none
    | some m =>
      some ((digitsToNat intPart * 10 ^ fs.length + digitsToNat fs) * m / 10 ^ fs.length)

/-- `Resource` from `internal/runner/request.go`: byte quantities are the
human-readable strings of the wire format, normalized via `parseBytes`
only inside `Fit`. -/
structure Resource where
  Cpus : ℕ
  Gpus : ℕ
  Hdd : String
  Ram : String
  GpuMem : String
deriving Repr, DecidableEq

/-- `(l *Resource) Fit(r *Resource) (didFit bool, err errors.Error)` from
`internal/runner/request.go`: parses both sides' Ram and Hdd strings
(failure is an error), parses GpuMem on both sides but reports a failure
only when the offending string is non-empty (an unparsed GpuMem
contributes the library's error value `0`), then returns the conjunctive
componentwise comparison.  `Except.error` models `(false, err)`. -/
def Resource.Fit (l r : Resource) : Except String Bool :=
  match parseBytes l.Ram with
  | none => Except.error "left side RAM could not be parsed"
  | some lRam =>
  match parseBytes r.Ram with
  | none => Except.error "right side RAM could not be parsed"
  | some rRam =>
  match parseBytes l.Hdd with
  | none => Except.error "left side Hdd could not be parsed"
  | some lHdd =>
  match parseBytes r.Hdd with
  | none => Except.error "right side Hdd could not be parsed"
  | some rHdd =>
  let lGpuOpt := parseBytes l.GpuMem
  if l.GpuMem.length ≠ 0 ∧ lGpuOpt = none then
    Except.error "left side gpuMem could not be parsed"
  else
  let rGpuOpt := parseBytes r.GpuMem
  if r.GpuMem.length ≠ 0 ∧ rGpuOpt = none then
    Except.error "right side gpuMem could not be parsed"
  else
    Except.ok (decide (l.Cpus ≤ r.Cpus) && decide (l.Gpus ≤ r.Gpus) &&
      decide (lHdd ≤ rHdd) && decide (lRam ≤ rRam) &&
      decide (lGpuOpt.getD 0 ≤ rGpuOpt.getD 0))

/-! ### JSON values and the `Request` wire format

The message payload handling of `internal/runner/request.go` is embedded
over an inductive JSON value type standing for the byte-level JSON text
(two byte strings that denote the same JSON tree are identified, which is
the claim's "up to map-field ordering" reading).  Go's `encoding/json`
semantics are modelled: a struct decodes from an object by looking each
tagged key up (unknown keys are ignored, missing keys and `null` leave the
zero value), and encodes to an object holding exactly its tagged fields in
declaration order, honouring `omitempty`.  Go's `float64` numbers are
modelled as integers and its nil/empty map and slice distinction is
dropped; neither abstraction is load-bearing for the properties proved
below. -/

inductive Json where
  | null
  | bool (b : Bool)
  | num (n : Int)
  | str (s : String)
  | arr (xs : List Json)
  | obj (fields : List (String × Json))

/-- Field lookup in a decoded JSON object: the value under the key, or
`null` when the key is missing (missing and `null` decode alike). -/
def getField : List (String × Json) → String → Json
  | [], _ => Json.null
  | (k, v) :: fs, key => if key = k then v else getField fs key

/-- Decode a JSON value into a Go `string` field. -/
def decodeString : Json → Option String
  | Json.str s => some s
  | Json.null => some ""
  | _ => none

/-- Decode a JSON value into a Go `uint` field (negative numbers are a
type error). -/
def decodeNat : Json → Option ℕ
  | Json.num n => if n < 0 then none else some n.toNat
  | Json.null => some 0
  | _ => none

/-- Decode a JSON value into a Go `int64` / numeric field. -/
def decodeInt : Json → Option Int
  | Json.num n => some n
  | Json.null => some 0
  | _ => none

/-- Decode a JSON value into a Go `bool` field. -/
def decodeBool : Json → Option Bool
  | Json.bool b => some b
  | Json.null => some false
  | _ => none

/-- Decode elements of a JSON array into Go strings. -/
def decodeStrElems : List Json → Option (List String)
  | [] => some []
  | j :: js =>
    match decodeString j, decodeStrElems js with
    | some s, some rest => some (s :: rest)
    | _, _ => none

/-- Decode a JSON value into a Go `[]string` field. -/
def decodeStringList : Json → Option (List String)
  | Json.null => some []
  | Json.arr xs => decodeStrElems xs
  | _ => none

/-- Decode entries of a JSON object into Go `map[string]string` entries. -/
def decodeStrEntries : List (String × Json) → Option (List (String × String))
  | [] => some []
  | (k, j) :: fs =>
    match decodeString j, decodeStrEntries fs with
    | some s, some rest => some ((k, s) :: rest)
    | _, _ => none

/-- Decode a JSON value into a Go `map[string]string` field. -/
def decodeStringMap : Json → Option (List (String × String))
  | Json.null => some []
  | Json.obj fs => decodeStrEntries fs
  | _ => none

/-- Encode a Go `[]string`. -/
def encodeStringList (xs : List String) : Json :=
  Json.arr (xs.map Json.str)

/-- Encode a Go `map[string]string`. -/
def encodeStringMap (m : List (String × String)) : Json :=
  Json.obj (m.map (fun p => (p.1, Json.str p.2)))

/-- `RunnerCustom` from `internal/runner/request.go`. -/
structure RunnerCustom where
  SlackDest : String
deriving Repr, DecidableEq

/-- `Database` from `internal/runner/request.go`.  The Go field `Type`
(JSON key `type`) is spelled `DbType` because `Type` is reserved in
Lean. -/
structure Database where
  ApiKey : String
  AuthDomain : String
  DatabaseURL : String
  MessagingSenderId : Int
  ProjectId : String
  StorageBucket : String
  DbType : String
  UseEmailAuth : Bool
deriving Repr, DecidableEq

/-- `Info` from `internal/runner/request.go`: a stubbed-out empty
struct. -/
structure Info where
deriving Repr, DecidableEq

/-- `Artifact` from `internal/runner/request.go`. -/
structure Artifact where
  Bucket : String
  Key : String
  Hash : String
  Local : String
  Mutable : Bool
  Unpack : Bool
  Qualified : String
deriving Repr, DecidableEq

/-- `Config` from `internal/runner/request.go`.  `Cloud` is a Go
`interface{}` slot holding the raw decoded JSON. -/
structure Config where
  Cloud : Json
  Database : Database
  SaveWorkspaceFrequency : String
  Lifetime : String
  Verbose : String
  Env : List (String × String)
  Pip : List String
  Runner : RunnerCustom

/-- `Experiment` from `internal/runner/request.go`.  `Git`, `Metric`,
`Project`, `TimeFinished`, `TimeLastCheckpoint` and `TimeStarted` are Go
`interface{}` slots holding raw JSON; `TimeAdded` (a Go `float64`) is
modelled as an integer. -/
structure Experiment where
  Args : List String
  Artifacts : List (String × Artifact)
  Filename : String
  Git : Json
  Info : Info
  Key : String
  Metric : Json
  Project : Json
  Pythonenv : List String
  PythonVer : Int
  Resource : Resource
  Status : String
  TimeAdded : Int
  MaxDuration : String
  TimeFinished : Json
  TimeLastCheckpoint : Json
  TimeStarted : Json

/-- `Request` from `internal/runner/request.go`. -/
structure Request where
  Config : Config
  Experiment : Experiment

/-- Encode a `Resource` (tags `cpus, gpus, hdd, ram, gpuMem`). -/
def Resource.encode (r : Resource) : Json :=
  Json.obj [("cpus", Json.num r.Cpus), ("gpus", Json.num r.Gpus),
    ("hdd", Json.str r.Hdd), ("ram", Json.str r.Ram),
    ("gpuMem", Json.str r.GpuMem)]

/-- Decode a `Resource`. -/
def decodeResource (j : Json) : Option Resource :=
  match j with
  | Json.null => some ⟨0, 0, "", "", ""⟩
  | Json.obj fs =>
    match decodeNat (getField fs "cpus"), decodeNat (getField fs "gpus"),
      decodeString (getField fs "hdd"), decodeString (getField fs "ram"),
      decodeString (getField fs "gpuMem") with
    | some c, some g, some h, some r, some gm => some ⟨c, g, h, r, gm⟩
    | _, _, _, _, _ => none
  | _ => none

/-- Encode a `RunnerCustom` (tag `slack_destination`). -/
def RunnerCustom.encode (r : RunnerCustom) : Json :=
  Json.obj [("slack_destination", Json.str r.SlackDest)]

/-- Decode a `RunnerCustom`. -/
def decodeRunnerCustom (j : Json) : Option RunnerCustom :=
  match j with
  | Json.null => some ⟨""⟩
  | Json.obj fs =>
    match decodeString (getField fs "slack_destination") with
    | some s => some ⟨s⟩
    | none => none
  | _ => none

/-- Encode a `Database`. -/
def Database.encode (d : Database) : Json :=
  Json.obj [("apiKey", Json.str d.ApiKey), ("authDomain", Json.str d.AuthDomain),
    ("databaseURL", Json.str d.DatabaseURL),
    ("messagingSenderId", Json.num d.MessagingSenderId),
    ("projectId", Json.str d.ProjectId), ("storageBucket", Json.str d.StorageBucket),
    ("type", Json.str d.DbType), ("use_email_auth", Json.bool d.UseEmailAuth)]

/-- Decode a `Database`. -/
def decodeDatabase (j : Json) : Option Database :=
  match j with
  | Json.null => some ⟨"", "", "", 0, "", "", "", false⟩
  | Json.obj fs =>
    match decodeString (getField fs "apiKey"), decodeString (getField fs "authDomain"),
      decodeString (getField fs "databaseURL"), decodeInt (getField fs "messagingSenderId"),
      decodeString (getField fs "projectId"), decodeString (getField fs "storageBucket"),
      decodeString (getField fs "type"), decodeBool (getField fs "use_email_auth") with
    | some a, some b, some c, some d, some e, some f, some g, some h =>
      some ⟨a, b, c, d, e, f, g, h⟩
    | _, _, _, _, _, _, _, _ => none
  | _ => none

/-- Encode an `Info` (empty struct). -/
def Info.encode (_ : Info) : Json := Json.obj []

/-- Decode an `Info`. -/
def decodeInfo (j : Json) : Option Info :=
  match j with
  | Json.null => some ⟨⟩
  | Json.obj _ => some ⟨⟩
  | _ => none

/-- Encode an `Artifact`, honouring `omitempty` on `hash` and `local`. -/
def Artifact.encode (a : Artifact) : Json :=
  Json.obj ([("bucket", Json.str a.Bucket), ("key", Json.str a.Key)] ++
    (if a.Hash = "" then [] else [("hash", Json.str a.Hash)]) ++
    (if a.Local = "" then [] else [("local", Json.str a.Local)]) ++
    [("mutable", Json.bool a.Mutable), ("unpack", Json.bool a.Unpack),
     ("qualified", Json.str a.Qualified)])

/-- Decode an `Artifact`. -/
def decodeArtifact (j : Json) : Option Artifact :=
  match j with
  | Json.null => some ⟨"", "", "", "", false, false, ""⟩
  | Json.obj fs =>
    match decodeString (getField fs "bucket"), decodeString (getField fs "key"),
      decodeString (getField fs "hash"), decodeString (getField fs "local"),
      decodeBool (getField fs "mutable"), decodeBool (getField fs "unpack"),
      decodeString (getField fs "qualified") with
    | some b, some k, some h, some l, some m, some u, some q =>
      some ⟨b, k, h, l, m, u, q⟩
    | _, _, _, _, _, _, _ => none
  | _ => none

/-- Encode a Go `map[string]Artifact`. -/
def encodeArtifactMap (m : List (String × Artifact)) : Json :=
  Json.obj (m.map (fun p => (p.1, Artifact.encode p.2)))

/-- Decode entries of a JSON object into `map[string]Artifact` entries. -/
def decodeArtifactEntries : List (String × Json) → Option (List (String × Artifact))
  | [] => some []
  | (k, j) :: fs =>
    match decodeArtifact j, decodeArtifactEntries fs with
    | some a, some rest => some ((k, a) :: rest)
    | _, _ => none

/-- Decode a JSON value into a Go `map[string]Artifact` field. -/
def decodeArtifactMap : Json → Option (List (String × Artifact))
  | Json.null => some []
  | Json.obj fs => decodeArtifactEntries fs
  | _ => none

/-- Encode a `Config`. -/
def Config.encode (c : Config) : Json :=
  Json.obj [("cloud", c.Cloud), ("database", c.Database.encode),
    ("saveWorkspaceFrequency", Json.str c.SaveWorkspaceFrequency),
    ("experimentLifetime", Json.str c.Lifetime), ("verbose", Json.str c.Verbose),
    ("env", encodeStringMap c.Env), ("pip", encodeStringList c.Pip),
    ("runner", c.Runner.encode)]

/-- Decode a `Config`. -/
def decodeConfig (j : Json) : Option Config :=
  match j with
  | Json.null =>
    some ⟨Json.null, ⟨"", "", "", 0, "", "", "", false⟩, "", "", "", [], [], ⟨""⟩⟩
  | Json.obj fs =>
    match decodeDatabase (getField fs "database"),
      decodeString (getField fs "saveWorkspaceFrequency"),
      decodeString (getField fs "experimentLifetime"),
      decodeString (getField fs "verbose"),
      decodeStringMap (getField fs "env"),
      decodeStringList (getField fs "pip"),
      decodeRunnerCustom (getField fs "runner") with
    | some db, some sw, some lt, some vb, some env, some pip, some rn =>
      some ⟨getField fs "cloud", db, sw, lt, vb, env, pip, rn⟩
    | _, _, _, _, _, _, _ => none
  | _ => none

/-- Encode an `Experiment`. -/
def Experiment.encode (e : Experiment) : Json :=
  Json.obj [("args", encodeStringList e.Args),
    ("artifacts", encodeArtifactMap e.Artifacts),
    ("filename", Json.str e.Filename), ("git", e.Git),
    ("info", e.Info.encode), ("key", Json.str e.Key),
    ("metric", e.Metric), ("project", e.Project),
    ("pythonenv", encodeStringList e.Pythonenv),
    ("pythonver", Json.num e.PythonVer),
    ("resources_needed", e.Resource.encode),
    ("status", Json.str e.Status), ("time_added", Json.num e.TimeAdded),
    ("max_duration", Json.str e.MaxDuration),
    ("time_finished", e.TimeFinished),
    ("time_last_checkpoint", e.TimeLastCheckpoint),
    ("time_started", e.TimeStarted)]

/-- Decode an `Experiment`. -/
def decodeExperiment (j : Json) : Option Experiment :=
  match j with
  | Json.null =>
    some ⟨[], [], "", Json.null, ⟨⟩, "", Json.null, Json.null, [], 0,
      ⟨0, 0, "", "", ""⟩, "", 0, "", Json.null, Json.null, Json.null⟩
  | Json.obj fs =>
    match decodeStringList (getField fs "args"),
      decodeArtifactMap (getField fs "artifacts"),
      decodeString (getField fs "filename"),
      decodeInfo (getField fs "info"),
      decodeString (getField fs "key"),
      decodeStringList (getField fs "pythonenv"),
      decodeInt (getField fs "pythonver"),
      decodeResource (getField fs "resources_needed"),
      decodeString (getField fs "status"),
      decodeInt (getField fs "time_added"),
      decodeString (getField fs "max_duration") with
    | some ar, some af, some fn, some info, some k, some pe, some pv,
      some rsc, some st, some ta, some md =>
      some ⟨ar, af, fn, getField fs "git", info, k, getField fs "metric",
        getField fs "project", pe, pv, rsc, st, ta, md,
        getField fs "time_finished", getField fs "time_last_checkpoint",
        getField fs "time_started"⟩
    | _, _, _, _, _, _, _, _, _, _, _ => none
  | _ => none

/-- `(r *Request) Marshal()`: serialize a request; the resulting JSON tree
stands for the emitted bytes. -/
def Request.Marshal (r : Request) : Json :=
  Json.obj [("config", r.Config.encode), ("experiment", r.Experiment.encode)]

/-- The zero `Request`: what `UnmarshalRequest` produces from a payload
that sets none of the known keys. -/
def requestZero : Request :=
  ⟨⟨Json.null, ⟨"", "", "", 0, "", "", "", false⟩, "", "", "", [], [], ⟨""⟩⟩,
   ⟨[], [], "", Json.null, ⟨⟩, "", Json.null, Json.null, [], 0,
     ⟨0, 0, "", "", ""⟩, "", 0, "", Json.null, Json.null, Json.null⟩⟩

/-- `UnmarshalRequest(data)`: parse the message bytes into a `Request`;
`none` models the wrapped `json.Unmarshal` error. -/
def UnmarshalRequest (j : Json) : Option Request :=
  match j with
  | Json.null => some requestZero
  | Json.obj fs =>
    match decodeConfig (getField fs "config"),
      decodeExperiment (getField fs "experiment") with
    | some c, some e => some ⟨c, e⟩
    | _, _ => none
  | _ => none

/-! ### Queue registry, back-off cache, producer and consumer (part_004)

The `Subscriptions` map `subs.subs` is embedded as an association list with
unique keys (Go map iteration order is arbitrary, so all set-level
statements below are order-insensitive).  The `go-cache` back-off cache is
an association list from `project:subscription` keys to TTLs in seconds
(`time.Minute` is 60, `time.Second` is 1); only presence and the written
TTL matter to the claims.  Channel readiness and the processor outcome are
external inputs passed as parameters. -/

/-- Association-list lookup, standing for Go map indexing. -/
def lookupKey {α : Type} : List (String × α) → String → Option α
  | [], _ => none
  | (k, v) :: rest, key => if key = k then some v else lookupKey rest key

/-- `Subscription` from part_004: name, last-seen resource request, and
the count of running instances. -/
structure Subscription where
  name : String
  rsc : Option Resource
  cnt : ℕ
deriving Repr, DecidableEq

/-- First loop of `Subscriptions.align`: every expected name not yet in
the map is inserted as a fresh `Subscription{name: sub}` and recorded in
`added`. -/
def alignAdds (subs : List (String × Subscription)) :
    List String → List (String × Subscription) × List String
  | [] => (subs, [])
  | e :: es =>
    if (lookupKey subs e).isSome then
      alignAdds subs es
    else
      let next := alignAdds (subs ++ [(e, ⟨e, none, 0⟩)]) es
      (next.1, e :: next.2)

/-- Second loop of `Subscriptions.align`: every name in the map that is
not expected is deleted and recorded in `removed`. -/
def alignRemoves (expected : List String) :
    List (String × Subscription) → List (String × Subscription) × List String
  | [] => ([], [])
  | (k, s) :: rest =>
    let next := alignRemoves expected rest
    if expected.contains k then ((k, s) :: next.1, next.2)
    else (next.1, k :: next.2)

/-- `Subscriptions.align(expected)`: returns the updated map together with
the `(added, removed)` name lists. -/
def align (subs : List (String × Subscription)) (expected : List String) :
    List (String × Subscription) × List String × List String :=
  let step1 := alignAdds subs expected
  let step2 := alignRemoves expected step1.1
  (step2.1, step1.2, step2.2)

/-- `Subscriptions.setResources(name, rsc)`: refuses a nil resource,
errors when the subscription is unknown, and otherwise overwrites the
cached resource of the named subscription. -/
def setResources (subs : List (String × Subscription)) (name : String)
    (rsc : Option Resource) : Except String (List (String × Subscription)) :=
  match rsc with
  | none => Except.error "clearing the resource spec for the subscription is not supported"
  | some r =>
    if (lookupKey subs name).isSome then
      Except.ok (subs.map (fun p => if p.1 = name then (p.1, { p.2 with rsc := some r }) else p))
    else
      Except.error "was not present"

/-- The `go-cache` back-off cache: keys `project:subscription` mapped to
TTLs in seconds. -/
def Backoffs : Type := List (String × ℕ)

/-- `backoffs.Get(key)`: whether a live entry is present. -/
def cacheGet (c : Backoffs) (k : String) : Bool :=
  (lookupKey c k).isSome

/-- `backoffs.Set(key, true, ttl)`: installs or replaces the key's
entry. -/
def cacheSet (c : Backoffs) (k : String) (ttl : ℕ) : Backoffs :=
  (k, ttl) :: List.filter (fun p => p.1 ≠ k) c

/-- The outcomes of `Queuer.check`: the stage-1 sentinel finding no ready
receiver, an unknown subscription, a failed capacity check, the stage-2
send timing out, or the probe being delivered. -/
inductive CheckResult where
  | busyStage1
  | notFound
  | fitFailed (msg : String)
  | busyStage2
  | sent
deriving Repr, DecidableEq

/-- `Queuer.check(name, rQ, quitC)`: `consumerReady` is whether the
rendezvous channel has a receiver ready for the stage-1 sentinel, and
`stage2Ready` whether the real probe is received within its 2-second
deadline.  The stage-1 `select` with `default:` runs first and aborts with
an error when no receiver is ready; then the subscription is looked up,
its cached resource (when known) is checked against the machine's
resources, and the real probe is sent. -/
def check (consumerReady : Bool) (subs : List (String × Subscription))
    (name : String) (machine : Resource) (stage2Ready : Bool) : CheckResult :=
  if !consumerReady then CheckResult.busyStage1
  else
    match lookupKey subs name with
    | none => CheckResult.notFound
    | some sub =>
      match sub.rsc with
      | some rsc =>
        match Resource.Fit rsc machine with
        | Except.error e => CheckResult.fitFailed e
        | Except.ok false => CheckResult.fitFailed "could not be accomodated"
        | Except.ok true =>
          if stage2Ready then CheckResult.sent else CheckResult.busyStage2
      | none => if stage2Ready then CheckResult.sent else CheckResult.busyStage2

/-- The producer's handling of `check`'s result (part_004 lines 267-273):
any error from `check` installs a one-minute back-off for the candidate
queue's `project:name` key. -/
def producerDispatch (project name : String) (result : CheckResult)
    (boffs : Backoffs) : Backoffs :=
  if result = CheckResult.sent then boffs
  else cacheSet boffs (project ++ ":" ++ name) 60

/-- The terminal decision taken for a message: `Ack` or `Nack`. -/
inductive MsgAction where
  | ack
  | nack
deriving Repr, DecidableEq

/-- The `(backoff, ack, err)` triple returned by `proc.Process(msg)`.
`backoff` is in seconds. -/
structure ProcResult where
  backoff : ℕ
  ack : Bool
  err : Option String
deriving Repr, DecidableEq

/-- What one run of the `sub.Receive` callback in `Queuer.doWork` did:
the terminal message action, the TTL (in seconds) written to the back-off
cache for the queue's key if any write happened, whether `rCancel` was
invoked to stop the receiver, and the updated subscriptions map. -/
structure HandlerOutcome where
  action : MsgAction
  boWrite : Option ℕ
  canceled : Bool
  subs : List (String × Subscription)

/-- The `sub.Receive` callback of `Queuer.doWork` (part_004 lines
560-634).  `newProc` is the result of `newProcessor` (the parsed request,
`none` when the message could not be processed into a request);
`process` is the result of `proc.Process(msg)`.  `boffs0` is the back-off
cache contents when the callback starts and `boffs1` its contents when
the processor has returned (concurrent workers may have installed entries
in between).  Branches: a live back-off at entry nacks and cancels; a
failed `newProcessor` nacks and cancels; otherwise the subscription's
resource hint is updated (errors logged and ignored), and the `Process`
result decides: an error acks or nacks as directed and writes the
returned back-off, while success acks and refreshes an existing back-off
entry to one second. -/
def doWorkHandler (project subscription : String) (newProc : Option Request)
    (process : ProcResult) (boffs0 boffs1 : Backoffs)
    (subs : List (String × Subscription)) : HandlerOutcome :=
  let key := project ++ ":" ++ subscription
  if cacheGet boffs0 key then
    ⟨MsgAction.nack, none, true, subs⟩
  else
    match newProc with
    | none => ⟨MsgAction.nack, none, true, subs⟩
    | some req =>
      let subs2 := (setResources subs subscription (some req.Experiment.Resource)).toOption.getD subs
      match process.err with
      | some _ =>
        ⟨if process.ack then MsgAction.ack else MsgAction.nack,
         some process.backoff, true, subs2⟩
      | none =>
        ⟨MsgAction.ack,
         if cacheGet boffs1 key then some 1 else none, false, subs2⟩

/-! ### Theorems: disk ledger -/

/-- `u64Mod` as a numeral, for arithmetic automation. -/
theorem u64Mod_eq : u64Mod = 18446744073709551616 := by norm_num [u64Mod]

/-- A tracker state with no allocations, a 100-byte soft reserve and no
initialization error. -/
def diskSt0 : DiskTracker := ⟨"/space", 0, 100, none⟩

/-- C1: the admission check of `AllocDisk` is inverted.  With 10000 bytes
available, nothing allocated and a soft reserve of 100, a 10-byte request
satisfies `available - (allocated + size) > softMinFree`, yet `AllocDisk`
returns the "insufficent space" error and leaves the ledger untouched;
conversely with only 105 bytes available (difference 95 ≤ 100, inside the
soft reserve) the same request is granted.  This is the opposite of both
the specification and the function's own error message. -/
theorem C1_allocDisk_check_inverted :
    10000 - (diskSt0.allocSpace + 10) > diskSt0.softMinFree ∧
    (AllocDisk 10000 10 diskSt0).1 = Except.error "insufficent space left" ∧
    (AllocDisk 10000 10 diskSt0).2 = diskSt0 ∧
    105 - (diskSt0.allocSpace + 10) ≤ diskSt0.softMinFree ∧
    (AllocDisk 105 10 diskSt0).1 = Except.ok ⟨"/space", 10⟩ ∧
    (AllocDisk 105 10 diskSt0).2.allocSpace = 10 := by
  refine ⟨by norm_num [diskSt0], ?_, ?_, by norm_num [diskSt0], ?_, ?_⟩ <;>
    simp [AllocDisk, diskSt0, sub64, add64, u64Mod_eq]

/-- C3 counterexample: with 1000 bytes available (85% headroom figure
850) and `minFree = 100000`, the claim's `max(minFree, 0.85 × available)`
is 100000, but `SetDiskLimits` returns 850: a nonzero `minFree` is only
adopted when it is *smaller* than the 85% figure. -/
theorem C3_setDiskLimits_not_max :
    (SetDiskLimits 1000 "/space" 100000 diskSt0).1 = 850 ∧
    max 100000 (scale85 1000) = 100000 ∧ (850 : ℕ) ≠ 100000 := by
  refine ⟨?_, by decide, by decide⟩
  simp [SetDiskLimits, scale85, diskSt0]

/-- C3 amended: `SetDiskLimits` stores and returns a soft minimum equal
to `0.85 × available` when `minFree` is zero and to
`min(minFree, 0.85 × available)` otherwise, and it resets the allocated
total to zero exactly when the device argument differs from the tracked
device (same-device allocations are preserved). -/
theorem C3_setDiskLimits_min_and_reset (availBytes minFree : ℕ)
    (device : String) (st : DiskTracker) :
    (SetDiskLimits availBytes device minFree st).1 =
      (if minFree = 0 then scale85 availBytes
       else min minFree (scale85 availBytes)) ∧
    (SetDiskLimits availBytes device minFree st).2.softMinFree =
      (SetDiskLimits availBytes device minFree st).1 ∧
    (SetDiskLimits availBytes device minFree st).2.device = device ∧
    (SetDiskLimits availBytes device minFree st).2.allocSpace =
      (if device = st.device then st.allocSpace else 0) := by
  refine ⟨?_, rfl, rfl, ?_⟩
  · by_cases h0 : minFree = 0
    · simp [SetDiskLimits, h0]
    · by_cases hlt : minFree < scale85 availBytes
      · simp [SetDiskLimits, h0, hlt, Nat.min_eq_left (Nat.le_of_lt hlt)]
      · simp [SetDiskLimits, h0, hlt, Nat.min_eq_right (Nat.le_of_not_lt hlt)]
  · by_cases hd : device = st.device
    · simp [SetDiskLimits, hd]
    · simp [SetDiskLimits, hd]

/-- C9: a release that passes the nil, initialization and device checks
always succeeds, subtracting with wrapping `uint64` arithmetic and never
comparing the size against the current total; when the size exceeds the
total the counter wraps modulo 2^64 instead of failing. -/
theorem C9_release_wraps (st : DiskTracker) (a : DiskAllocated)
    (hinit : st.initErr = none) (hdev : a.device = st.device)
    (halloc : st.allocSpace < u64Mod) (hsize : a.size < u64Mod) :
    (Release st (some a)).1 = Except.ok () ∧
    (Release st (some a)).2.allocSpace =
      (st.allocSpace + (u64Mod - a.size)) % u64Mod ∧
    (st.allocSpace < a.size →
      (Release st (some a)).2.allocSpace = u64Mod - (a.size - st.allocSpace)) := by
  have hmod : (st.allocSpace % u64Mod + (u64Mod - a.size % u64Mod)) % u64Mod =
      (st.allocSpace + (u64Mod - a.size)) % u64Mod := by
    rw [Nat.mod_eq_of_lt halloc, Nat.mod_eq_of_lt hsize]
  refine ⟨?_, ?_, ?_⟩
  · simp [Release, hinit, hdev]
  · simp [Release, hinit, hdev, sub64, hmod]
  · intro hlt
    have hsmall : st.allocSpace + (u64Mod - a.size) < u64Mod := by omega
    simp [Release, hinit, hdev, sub64, hmod, Nat.mod_eq_of_lt hsmall]
    omega

/-- A tracker state holding 5 allocated bytes. -/
def relSt0 : DiskTracker := ⟨"/space", 5, 0, none⟩

/-- C9 witness: releasing a 10-byte reservation against a 5-byte total
succeeds and wraps the total to `2^64 - 5`. -/
theorem C9_release_wraps_witness :
    (Release relSt0 (some ⟨"/space", 10⟩)).1 = Except.ok () ∧
    (Release relSt0 (some ⟨"/space", 10⟩)).2.allocSpace = u64Mod - (10 - 5) :=
  ⟨(C9_release_wraps relSt0 ⟨"/space", 10⟩ rfl rfl
      (by norm_num [u64Mod_eq, relSt0]) (by norm_num [u64Mod_eq])).1,
   (C9_release_wraps relSt0 ⟨"/space", 10⟩ rfl rfl
      (by norm_num [u64Mod_eq, relSt0]) (by norm_num [u64Mod_eq])).2.2 (by norm_num [relSt0])⟩

/-! ### Theorems: resource fit -/

/-- The empty string is a `ParseBytes` error (Go then sees the value
`0`). -/
theorem parseBytes_empty : parseBytes "" = none := rfl

/-- C4: when both sides' Ram and Hdd strings parse and each side's GpuMem
either parses or is empty (contributing zero), `Fit(need, have)` returns
true exactly when every component of the need is at most the
corresponding component of the have; in particular an empty `need.GpuMem`
is zero and matches any have. -/
theorem C4_fit_componentwise (nd hv : Resource) (nR hR nH hH ng hg : ℕ)
    (h1 : parseBytes nd.Ram = some nR) (h2 : parseBytes hv.Ram = some hR)
    (h3 : parseBytes nd.Hdd = some nH) (h4 : parseBytes hv.Hdd = some hH)
    (h5 : nd.GpuMem = "" ∧ ng = 0 ∨ parseBytes nd.GpuMem = some ng)
    (h6 : hv.GpuMem = "" ∧ hg = 0 ∨ parseBytes hv.GpuMem = some hg) :
    Resource.Fit nd hv = Except.ok true ↔
      nd.Cpus ≤ hv.Cpus ∧ nd.Gpus ≤ hv.Gpus ∧ nH ≤ hH ∧ nR ≤ hR ∧ ng ≤ hg := by
  rcases h5 with ⟨he5, hz5⟩ | hp5 <;> rcases h6 with ⟨he6, hz6⟩ | hp6 <;>
    subst_vars <;>
    simp [Resource.Fit, h1, h2, h3, h4, parseBytes_empty, and_assoc, *]

/-- C4 witness: a 1-cpu, 2 Gb-RAM, 10 Gb-disk need with no GpuMem
requirement fits a 4-cpu, 8 Gb, 100 Gb, 4 Gb-GPU machine, and the
equivalence instantiates with the parsed byte values. -/
theorem C4_fit_componentwise_witness :
    parseBytes "2gb" = some 2000000000 ∧
    (Resource.Fit ⟨1, 0, "10gb", "2gb", ""⟩ ⟨4, 1, "100gb", "8gb", "4gb"⟩ = Except.ok true ↔
      1 ≤ 4 ∧ 0 ≤ 1 ∧ (10000000000 : ℕ) ≤ 100000000000 ∧
        (2000000000 : ℕ) ≤ 8000000000 ∧ (0 : ℕ) ≤ 4000000000) :=
  ⟨rfl, C4_fit_componentwise _ _ _ _ _ _ _ _ rfl rfl rfl rfl
    (Or.inl ⟨rfl, rfl⟩) (Or.inr rfl)⟩

/-! ### Theorems: producer and consumer acknowledgement behaviour -/

/-- C2 counterexample: a message whose `newProcessor` call fails (the
payload cannot be parsed into a `Request`), arriving with no live
back-off, is negatively acknowledged — not acknowledged as the claim
states. -/
theorem C2_parse_failure_is_nacked :
    (doWorkHandler "p" "q" none ⟨0, true, none⟩ [] [] []).action = MsgAction.nack ∧
    MsgAction.nack ≠ MsgAction.ack := by
  exact ⟨rfl, by decide⟩

/-- C2 amended: when the handler fails to parse a received message into a
`Request` (and no back-off was live at entry), the message is negatively
acknowledged, making it eligible for redelivery; the receiver is
cancelled and no back-off entry is written. -/
theorem C2_parse_failure_nacks (project subscription : String)
    (process : ProcResult) (boffs0 boffs1 : Backoffs)
    (subs : List (String × Subscription))
    (h : cacheGet boffs0 (project ++ ":" ++ subscription) = false) :
    (doWorkHandler project subscription none process boffs0 boffs1 subs).action =
      MsgAction.nack ∧
    (doWorkHandler project subscription none process boffs0 boffs1 subs).boWrite = none ∧
    (doWorkHandler project subscription none process boffs0 boffs1 subs).canceled = true := by
  simp [doWorkHandler, h]

/-- C2 amended witness: concrete instance of the nack-on-parse-failure
behaviour. -/
theorem C2_parse_failure_nacks_witness :
    cacheGet [] ("p" ++ ":" ++ "q") = false ∧
    (doWorkHandler "p" "q" none ⟨30, false, some "I/O"⟩ [] [] []).action = MsgAction.nack :=
  ⟨rfl, (C2_parse_failure_nacks "p" "q" ⟨30, false, some "I/O"⟩ [] [] [] rfl).1⟩

/-- C6 counterexample: when the stage-1 sentinel finds no ready receiver,
`check` returns the stage-1 busy error and the producer *does* install a
back-off entry (one minute) for the candidate queue. -/
theorem C6_stage1_busy_installs_backoff :
    check false [] "q" ⟨0, 0, "", "", ""⟩ false = CheckResult.busyStage1 ∧
    cacheGet (producerDispatch "p" "q"
        (check false [] "q" ⟨0, 0, "", "", ""⟩ false) []) ("p" ++ ":" ++ "q") = true := by
  exact ⟨rfl, rfl⟩

/-- C6 amended: a stage-1 abort (no ready receiver on the rendezvous
channel) makes `check` return an error and the producer installs a
one-minute back-off entry for the candidate queue's key. -/
theorem C6_stage1_busy_one_minute (project name : String)
    (subs : List (String × Subscription)) (machine : Resource)
    (stage2Ready : Bool) (boffs : Backoffs) :
    check false subs name machine stage2Ready = CheckResult.busyStage1 ∧
    producerDispatch project name (check false subs name machine stage2Ready) boffs =
      cacheSet boffs (project ++ ":" ++ name) 60 := by
  refine ⟨rfl, ?_⟩
  simp [check, producerDispatch]

/-- C7 counterexample: a successful `Process` with no pre-existing
back-off entry acks the message but writes no back-off at all — the
1-second defensive entry of the claim is not installed. -/
theorem C7_success_without_prior_backoff :
    (doWorkHandler "p" "q" (some requestZero) ⟨0, true, none⟩ [] [] []).action =
      MsgAction.ack ∧
    (doWorkHandler "p" "q" (some requestZero) ⟨0, true, none⟩ [] [] []).boWrite = none := by
  exact ⟨rfl, rfl⟩

/-- C7 amended: on `Process` success (and no back-off live at entry) the
message is acknowledged, and a 1-second back-off is written for the
queue's key exactly when a back-off entry is already present at the time
of the acknowledgement; otherwise no entry is installed. -/
theorem C7_success_ack_conditional_backoff (project subscription : String)
    (req : Request) (backoff : ℕ) (ackBit : Bool) (boffs0 boffs1 : Backoffs)
    (subs : List (String × Subscription))
    (h : cacheGet boffs0 (project ++ ":" ++ subscription) = false) :
    (doWorkHandler project subscription (some req) ⟨backoff, ackBit, none⟩
        boffs0 boffs1 subs).action = MsgAction.ack ∧
    (doWorkHandler project subscription (some req) ⟨backoff, ackBit, none⟩
        boffs0 boffs1 subs).boWrite =
      (if cacheGet boffs1 (project ++ ":" ++ subscription) then some 1 else none) := by
  simp [doWorkHandler, h]

/-- C7 amended witness: with a concurrent back-off present when the
success path runs, the entry is refreshed to one second; the message is
acked. -/
theorem C7_success_ack_conditional_backoff_witness :
    cacheGet [] ("p" ++ ":" ++ "q") = false ∧
    (doWorkHandler "p" "q" (some requestZero) ⟨0, true, none⟩ []
        [("p" ++ ":" ++ "q", 60)] []).action = MsgAction.ack ∧
    (doWorkHandler "p" "q" (some requestZero) ⟨0, true, none⟩ []
        [("p" ++ ":" ++ "q", 60)] []).boWrite = some 1 := by
  have h := C7_success_ack_conditional_backoff "p" "q" requestZero 0 true []
    [("p" ++ ":" ++ "q", 60)] [] rfl
  exact ⟨rfl, h.1, by rw [h.2]; rfl⟩

/-! ### Theorems: subscription registry alignment -/

theorem lookupKey_append {α : Type} (l₁ l₂ : List (String × α)) (k : String) :
    lookupKey (l₁ ++ l₂) k =
      (match lookupKey l₁ k with
       | some v => some v
       | none => lookupKey l₂ k) := by
  induction l₁ with
  | nil => simp [lookupKey]
  | cons p l ih =>
    obtain ⟨k1, v1⟩ := p
    by_cases h : k = k1 <;> simp [lookupKey, h, ih]

theorem alignAdds_presence (es : List String) (subs : List (String × Subscription))
    (k : String) :
    (lookupKey (alignAdds subs es).1 k).isSome =
      ((lookupKey subs k).isSome || es.contains k) := by
  induction es generalizing subs with
  | nil => simp [alignAdds]
  | cons e es ih =>
    by_cases hke : k = e
    · subst hke
      cases h : (lookupKey subs k).isSome with
      | true => simp [alignAdds, h, ih]
      | false =>
        simp only [alignAdds, h, Bool.false_eq_true, if_false]
        rw [ih, lookupKey_append]
        cases hs : lookupKey subs k
        · simp [lookupKey, hs]
        · simp_all
    · cases h : (lookupKey subs e).isSome with
      | true => simp [alignAdds, h, ih, hke]
      | false =>
        simp only [alignAdds, h, Bool.false_eq_true, if_false]
        rw [ih, lookupKey_append]
        cases hs : lookupKey subs k <;> simp [lookupKey, hke, Ne.symm hke, hs]

theorem alignAdds_preserves (es : List String) (subs : List (String × Subscription))
    (k : String) (v : Subscription) (h : lookupKey subs k = some v) :
    lookupKey (alignAdds subs es).1 k = some v := by
  induction es generalizing subs with
  | nil => simpa [alignAdds] using h
  | cons e es ih =>
    cases hp : (lookupKey subs e).isSome with
    | true => simp only [alignAdds, hp, if_true]; exact ih subs h
    | false =>
      simp only [alignAdds, hp, Bool.false_eq_true, if_false]
      refine ih _ ?_
      rw [lookupKey_append, h]

theorem alignAdds_added (es : List String) (subs : List (String × Subscription))
    (k : String) (hN : es.Nodup) :
    k ∈ (alignAdds subs es).2 ↔ k ∈ es ∧ (lookupKey subs k).isSome = false := by
  induction es generalizing subs with
  | nil => simp [alignAdds]
  | cons e es ih =>
    obtain ⟨hne, hN2⟩ := List.nodup_cons.mp hN
    cases hp : (lookupKey subs e).isSome with
    | true =>
      simp only [alignAdds, hp, if_true]
      rw [ih subs hN2]
      by_cases hke : k = e
      · subst hke; simp [hp, hne]
      · simp [hke]
    | false =>
      simp only [alignAdds, hp, Bool.false_eq_true, if_false]
      by_cases hke : k = e
      · subst hke; simp [hp]
      · simp only [List.mem_cons, hke, false_or]
        rw [ih _ hN2, lookupKey_append]
        cases hs : lookupKey subs k <;> simp [lookupKey, hke, hs]

theorem alignRemoves_eq (expected : List String)
    (m : List (String × Subscription)) :
    alignRemoves expected m =
      (m.filter (fun p => expected.contains p.1),
       (m.filter (fun p => !expected.contains p.1)).map Prod.fst) := by
  induction m with
  | nil => simp [alignRemoves]
  | cons p rest ih =>
    obtain ⟨k1, v1⟩ := p
    by_cases hc : k1 ∈ expected <;>
      simp [alignRemoves, hc, ih, List.filter_cons]

theorem lookupKey_filter_key (q : String → Bool)
    (m : List (String × Subscription)) (k : String) :
    lookupKey (m.filter (fun p => q p.1)) k =
      (if q k then lookupKey m k else none) := by
  induction m with
  | nil => simp [lookupKey]
  | cons p rest ih =>
    obtain ⟨k1, v1⟩ := p
    by_cases hke : k = k1
    · subst hke
      cases hq : q k <;> simp [List.filter_cons, hq, lookupKey, ih]
    · cases hq : q k1 <;> simp [List.filter_cons, hq, lookupKey, hke, ih]

theorem mem_map_fst_iff_lookup (m : List (String × Subscription)) (k : String) :
    k ∈ m.map Prod.fst ↔ (lookupKey m k).isSome = true := by
  induction m with
  | nil => simp [lookupKey]
  | cons p rest ih =>
    obtain ⟨k1, v1⟩ := p
    by_cases hke : k = k1 <;> simp [lookupKey, hke, ih]

/-- `lookupKey_filter_key` specialized to the keep-filter of
`alignRemoves`. -/
theorem lookupKey_filter_contains (expected : List String)
    (m : List (String × Subscription)) (k : String) :
    lookupKey (m.filter (fun p => expected.contains p.1)) k =
      (if expected.contains k then lookupKey m k else none) :=
  lookupKey_filter_key (fun x => expected.contains x) m k

/-- `lookupKey_filter_key` specialized to the drop-filter of
`alignRemoves`. -/
theorem lookupKey_filter_not_contains (expected : List String)
    (m : List (String × Subscription)) (k : String) :
    lookupKey (m.filter (fun p => !expected.contains p.1)) k =
      (if !expected.contains k then lookupKey m k else none) :=
  lookupKey_filter_key (fun x => !expected.contains x) m k

/-- C8: one `align(Q)` call leaves the registry's key set exactly `Q`;
`added` contains precisely the expected names that were absent, and
`removed` precisely the present names that are not expected.  In
particular a second call with the same `Q` changes nothing, so after the
broker reports `Q` twice the registry's set is `Q`. -/
theorem C8_align_converges (subs : List (String × Subscription))
    (expected : List String) (hN : expected.Nodup) :
    (∀ k, (lookupKey (align subs expected).1 k).isSome = true ↔ k ∈ expected) ∧
    (∀ k, k ∈ (align subs expected).2.1 ↔
      k ∈ expected ∧ (lookupKey subs k).isSome = false) ∧
    (∀ k, k ∈ (align subs expected).2.2 ↔
      (lookupKey subs k).isSome = true ∧ k ∉ expected) := by
  refine ⟨?_, ?_, ?_⟩
  · intro k
    show (lookupKey (alignRemoves expected (alignAdds subs expected).1).1 k).isSome
        = true ↔ _
    rw [alignRemoves_eq, lookupKey_filter_contains]
    by_cases hk : k ∈ expected
    · simp [hk, alignAdds_presence]
    · simp [hk]
  · intro k
    show k ∈ (alignAdds subs expected).2 ↔ _
    exact alignAdds_added expected subs k hN
  · intro k
    have h2 : (align subs expected).2.2 =
        (List.filter (fun p => !expected.contains p.1)
          (alignAdds subs expected).1).map Prod.fst := by
      simp [align, alignRemoves_eq]
    rw [h2, mem_map_fst_iff_lookup, lookupKey_filter_not_contains]
    by_cases hk : k ∈ expected
    · simp [hk]
    · simp [hk, alignAdds_presence]

/-- A two-subscription registry used as a concrete witness state:
`a` has a cached resource hint and two running instances, `b` is idle. -/
def subsW : List (String × Subscription) :=
  [("a", ⟨"a", some ⟨1, 0, "10gb", "2gb", ""⟩, 2⟩), ("b", ⟨"b", none, 0⟩)]

/-- C8 witness: aligning `subsW` to the broker set `a, c` adds `c`,
removes `b`, and the new key set contains `c`. -/
theorem C8_align_converges_witness :
    (["a", "c"] : List String).Nodup ∧
    (lookupKey (align subsW ["a", "c"]).1 "c").isSome = true ∧
    "c" ∈ (align subsW ["a", "c"]).2.1 ∧
    "b" ∈ (align subsW ["a", "c"]).2.2 := by
  have h := C8_align_converges subsW ["a", "c"] (by decide)
  exact ⟨by decide, (h.1 "c").mpr (by decide),
    (h.2.1 "c").mpr ⟨by decide, rfl⟩, (h.2.2 "b").mpr ⟨rfl, by decide⟩⟩

/-- C10: `align` leaves every subscription whose name is both currently
present and expected untouched: its record (name, cached resource hint
and in-flight count) is looked up unchanged after the refresh. -/
theorem C10_align_frame (subs : List (String × Subscription))
    (expected : List String) (k : String) (v : Subscription)
    (hk : lookupKey subs k = some v) (he : k ∈ expected) :
    lookupKey (align subs expected).1 k = some v := by
  show lookupKey (alignRemoves expected (alignAdds subs expected).1).1 k = some v
  rw [alignRemoves_eq, lookupKey_filter_contains]
  have h1 := alignAdds_preserves expected subs k v hk
  simp [he, h1]

/-- C10 witness: the kept subscription `a` retains its resource hint and
its in-flight count of 2 across the refresh. -/
theorem C10_align_frame_witness :
    lookupKey (align subsW ["a", "c"]).1 "a" =
      some ⟨"a", some ⟨1, 0, "10gb", "2gb", ""⟩, 2⟩ :=
  C10_align_frame subsW ["a", "c"] "a" _ rfl (by decide)

/-! ### Theorems: request message round-trip -/

theorem decodeNat_num (n : ℕ) : decodeNat (Json.num (n : Int)) = some n := by
  simp [decodeNat]

theorem decodeStrElems_round (xs : List String) :
    decodeStrElems (xs.map Json.str) = some xs := by
  induction xs with
  | nil => rfl
  | cons x xs ih => simp [decodeStrElems, decodeString, ih]

theorem decodeStringList_round (xs : List String) :
    decodeStringList (encodeStringList xs) = some xs := by
  simp [decodeStringList, encodeStringList, decodeStrElems_round]

theorem decodeStrEntries_round (m : List (String × String)) :
    decodeStrEntries (m.map (fun p => (p.1, Json.str p.2))) = some m := by
  induction m with
  | nil => rfl
  | cons p m ih => simp [decodeStrEntries, decodeString, ih]

theorem decodeStringMap_round (m : List (String × String)) :
    decodeStringMap (encodeStringMap m) = some m := by
  simp [decodeStringMap, encodeStringMap, decodeStrEntries_round]

theorem decodeResource_round (r : Resource) :
    decodeResource (Resource.encode r) = some r := by
  simp [decodeResource, Resource.encode, getField, decodeNat_num, decodeString]

theorem decodeRunnerCustom_round (r : RunnerCustom) :
    decodeRunnerCustom (RunnerCustom.encode r) = some r := by
  simp [decodeRunnerCustom, RunnerCustom.encode, getField, decodeString]

theorem decodeDatabase_round (d : Database) :
    decodeDatabase (Database.encode d) = some d := by
  simp [decodeDatabase, Database.encode, getField, decodeString, decodeInt, decodeBool]

theorem decodeArtifact_round (a : Artifact) :
    decodeArtifact (Artifact.encode a) = some a := by
  obtain ⟨b, k, h, l, m, u, q⟩ := a
  by_cases h1 : h = "" <;> by_cases h2 : l = "" <;> subst_vars <;>
    simp [decodeArtifact, Artifact.encode, getField, decodeString, decodeBool, *]

theorem decodeArtifactEntries_round (m : List (String × Artifact)) :
    decodeArtifactEntries (m.map (fun p => (p.1, Artifact.encode p.2))) = some m := by
  induction m with
  | nil => rfl
  | cons p m ih => simp [decodeArtifactEntries, decodeArtifact_round, ih]

theorem decodeArtifactMap_round (m : List (String × Artifact)) :
    decodeArtifactMap (encodeArtifactMap m) = some m := by
  simp [decodeArtifactMap, encodeArtifactMap, decodeArtifactEntries_round]

theorem decodeConfig_round (c : Config) :
    decodeConfig (Config.encode c) = some c := by
  simp [decodeConfig, Config.encode, getField, decodeString,
    decodeDatabase_round, decodeStringMap_round, decodeStringList_round,
    decodeRunnerCustom_round]

theorem decodeExperiment_round (e : Experiment) :
    decodeExperiment (Experiment.encode e) = some e := by
  simp [decodeExperiment, Experiment.encode, Info.encode, getField, decodeString,
    decodeInt, decodeInfo, decodeStringList_round, decodeArtifactMap_round,
    decodeResource_round]

/-- C5 amended: for every `Request` value, unmarshalling the bytes
produced by `Marshal` yields the request back exactly (including the
opaque `interface\x7b\x7d` slots `cloud`, `git`, `metric`, `project` and the
time fields); unknown keys of the original *bytes*, however, are
discarded at parse time and do not survive (see the counterexample). -/
theorem C5_request_roundtrip (r : Request) :
    UnmarshalRequest (Request.Marshal r) = some r := by
  simp [UnmarshalRequest, Request.Marshal, getField,
    decodeConfig_round, decodeExperiment_round]

/-- The parse-then-serialize composition on message bytes. -/
def roundTrip (j : Json) : Option Json :=
  (UnmarshalRequest j).map Request.Marshal

/-- Top-level key lookup in a JSON object value. -/
def topField (j : Json) (k : String) : Option Json :=
  match j with
  | Json.obj fs => lookupKey fs k
  | _ => none

/-- C5 counterexample: a payload carrying the unknown top-level key
`extra` parses successfully, but the key is absent from the
parse-then-serialize result: `json.Unmarshal` into the typed `Request`
struct drops keys it does not know, so the round trip is not lossless
for unknown fields. -/
theorem C5_unknown_key_lost :
    topField (Json.obj [("extra", Json.num 1)]) "extra" = some (Json.num 1) ∧
    roundTrip (Json.obj [("extra", Json.num 1)]) = some (Request.Marshal requestZero) ∧
    topField (Request.Marshal requestZero) "extra" = none := by
  exact ⟨rfl, rfl, rfl⟩

end StudioGoRunner
